import Mathlib

/-!
Verification of the FLAC/MP3 validation engine in getMusic.py (and its
standalone variant testFLAC.py) against its natural-language specification.

The embedding models the pure decision logic of the program. External
effects are turned into explicit data:
* the `(returncode, stdout, stderr)` triple produced by `run_proc` for one
  subprocess invocation becomes a `ProcResult` (the two streams are modelled
  after the `.strip()` applied by `run_proc`);
* `shutil.which` probing becomes an `Avail` record fixed per session;
* the completion order of `concurrent.futures.as_completed` becomes the
  order of the target list handed to the scan functions, and a
  `KeyboardInterrupt` arriving during the result-collection loop is
  modelled by an optional count of results collected before the interrupt.
-/

namespace GetMusic

/-- Result of `run_proc`: exit code plus the two captured streams, already
decoded and stripped. -/
structure ProcResult where
  code : Int
  out : String
  err : String
deriving DecidableEq, Repr

/-- Python string disjunction `a or b`: the first operand when non-empty,
otherwise the second. -/
def strOr (a b : String) : String :=
  if a = "" then b else a

/-- `test_with_flac` (getMusic.py lines 434-439): run `flac -t -s path`;
exit code 0 is a pass, otherwise the message is `err or out or
"flac exited with code {code}"`. -/
def test_with_flac (r : ProcResult) : Bool × String :=
  if r.code = 0 then (true, "")
  else (false, strOr r.err (strOr r.out ("flac exited with code " ++ toString r.code)))

/-- `test_with_ffmpeg` (getMusic.py lines 442-448): run
`ffmpeg -v error -nostats -i path -f null -`; a pass needs exit code 0 AND
an empty stderr; exit code 0 with non-empty stderr fails with that stderr
as the message. -/
def test_with_ffmpeg (r : ProcResult) : Bool × String :=
  if r.code = 0 ∧ r.err = "" then (true, "")
  else if r.code = 0 then (false, r.err)
  else (false, strOr r.err (strOr r.out ("ffmpeg exited with code " ++ toString r.code)))

/-- Which validator executables `shutil.which` finds on the PATH; probed
per call of `has_tool` but constant over a session in this model. -/
structure Avail where
  flac : Bool
  ffmpeg : Bool
deriving DecidableEq, Repr

/-- What the two possible validator subprocesses would produce for one
file: the `ProcResult` of a `flac` run and of a `ffmpeg` run on it. -/
structure FileProc where
  flacRes : ProcResult
  ffmpegRes : ProcResult
deriving DecidableEq, Repr

/-- `test_flac` (getMusic.py lines 451-468): returns
`(ok, method_used, message)`. With `prefer = "ffmpeg"`: if ffmpeg is
available it runs first, and its verdict is final when it passes or when
flac is unavailable; otherwise flac runs (also when ffmpeg is absent).
With any other `prefer` (the default `"flac"`): flac runs and its verdict
is final whenever flac is available; ffmpeg runs only when flac is absent.
With neither tool, a `("none", ...)` failure. -/
def test_flac (fp : FileProc) (prefer : String) (av : Avail) : Bool × String × String :=
  if prefer = "ffmpeg" then
    if av.ffmpeg then
      if (test_with_ffmpeg fp.ffmpegRes).1 ∨ ¬ av.flac then
        ((test_with_ffmpeg fp.ffmpegRes).1, "ffmpeg",
          if (test_with_ffmpeg fp.ffmpegRes).1 then "" else (test_with_ffmpeg fp.ffmpegRes).2)
      else
        ((test_with_flac fp.flacRes).1, "flac",
          if (test_with_flac fp.flacRes).1 then "" else (test_with_flac fp.flacRes).2)
    else if av.flac then
      ((test_with_flac fp.flacRes).1, "flac",
        if (test_with_flac fp.flacRes).1 then "" else (test_with_flac fp.flacRes).2)
    else (false, "none", "Neither \x27ffmpeg\x27 nor \x27flac\x27 found in PATH.")
  else
    if av.flac then
      ((test_with_flac fp.flacRes).1, "flac",
        if (test_with_flac fp.flacRes).1 then "" else (test_with_flac fp.flacRes).2)
    else if av.ffmpeg then
      ((test_with_ffmpeg fp.ffmpegRes).1, "ffmpeg",
        if (test_with_ffmpeg fp.ffmpegRes).1 then "" else (test_with_ffmpeg fp.ffmpegRes).2)
    else (false, "none", "Neither \x27flac\x27 nor \x27ffmpeg\x27 found in PATH.")

/-- The sequence of validator subprocess invocations `test_flac` performs,
in order, following its control flow exactly: which of
`test_with_ffmpeg` / `test_with_flac` are called before it returns. -/
def test_flac_invocations (fp : FileProc) (prefer : String) (av : Avail) : List String :=
  if prefer = "ffmpeg" then
    if av.ffmpeg then
      if (test_with_ffmpeg fp.ffmpegRes).1 ∨ ¬ av.flac then ["ffmpeg"]
      else ["ffmpeg", "flac"]
    else if av.flac then ["flac"]
    else []
  else
    if av.flac then ["flac"]
    else if av.ffmpeg then ["ffmpeg"]
    else []

/-- One discovered `.flac` target: its path, the behavior of the two
possible validator subprocesses on it, and — for the generic
`except Exception` arm of the worker (getMusic.py lines 504-505) — an
optional exception text (`repr(e)`), `none` when `test_flac` completes
normally. -/
structure Target where
  path : String
  proc : FileProc
  exc : Option String
deriving DecidableEq, Repr

/-- One collected per-file result, as received from a completed future:
`(path, ok, method, msg)` (getMusic.py line 518). -/
structure Outcome where
  path : String
  ok : Bool
  method : String
  msg : String
deriving DecidableEq, Repr

/-- The `worker` closure of `run_flac_mode` (getMusic.py lines 498-505):
normally delegates to `test_flac`; a raised exception other than
`KeyboardInterrupt` becomes a failed outcome with method `"exception"`. -/
def worker (prefer : String) (av : Avail) (t : Target) : Outcome :=
  match t.exc with
  | some e => ⟨t.path, false, "exception", e⟩
  | none =>
    ⟨t.path, (test_flac t.proc prefer av).1, (test_flac t.proc prefer av).2.1,
      (test_flac t.proc prefer av).2.2⟩

/-- State of the result-collection loop of `run_flac_mode` (getMusic.py
lines 507-525): the `checked` counter, the full list of results received
from completed futures so far (in completion order), and the `errors`
list accumulating the non-passing ones. -/
structure LoopState where
  checked : Nat
  results : List Outcome
  errors : List Outcome
deriving DecidableEq, Repr

/-- One iteration of the collection loop (getMusic.py lines 517-525):
receive one future result, increment `checked`, append to `errors` when
not ok. -/
def stepLoop (prefer : String) (av : Avail) (s : LoopState) (t : Target) : LoopState :=
  ⟨s.checked + 1,
   s.results ++ [worker prefer av t],
   if (worker prefer av t).ok then s.errors else s.errors ++ [worker prefer av t]⟩

/-- The loop state after the first `i` futures (in completion order
`order`) have been collected; `i ≥ length order` gives the final state. -/
def loopState (prefer : String) (av : Avail) (order : List Target) (i : Nat) : LoopState :=
  List.foldl (stepLoop prefer av) ⟨0, [], []⟩ (order.take i)

/-- Observable result of one `run_flac_mode` session: its exit status,
final `checked` counter, collected outcomes, accumulated `errors`,
whether the CSV report was opened and written, and the rows written to it
(after the header). -/
structure ScanResult where
  exitCode : Int
  checked : Nat
  outcomes : List Outcome
  errors : List Outcome
  reportWritten : Bool
  report : List Outcome
deriving DecidableEq, Repr

/-- Terminal state when the collection loop is interrupted by
`KeyboardInterrupt` (getMusic.py lines 526-533): pending futures are
cancelled, the accumulated `errors` are abandoned, no report is written,
exit status 130. -/
def interruptedResult (s : LoopState) : ScanResult :=
  ⟨130, s.checked, s.results, s.errors, false, []⟩

/-- Terminal state when the collection loop runs to completion
(getMusic.py lines 540-557): with a non-empty `errors` list the CSV
report is written with exactly those rows and the exit status is 1;
otherwise no report is created and the exit status is 0. -/
def completedResult (s : LoopState) : ScanResult :=
  if s.errors.isEmpty then ⟨0, s.checked, s.results, s.errors, false, []⟩
  else ⟨1, s.checked, s.results, s.errors, true, s.errors⟩

/-- `run_flac_mode` (getMusic.py lines 478-557). `order` is the list of
discovered `.flac` files in the completion order of the worker pool;
`interruptAfter = some n` models a `KeyboardInterrupt` delivered once
`n` results have been collected (no interrupt happens when `n` is not
reached). An empty discovery returns 0 immediately; with no validator
tool on the PATH the session aborts with exit status 2 before any work
is dispatched. -/
def run_flac_mode (order : List Target) (prefer : String) (av : Avail)
    (interruptAfter : Option Nat) : ScanResult :=
  if order.length = 0 then ⟨0, 0, [], [], false, []⟩
  else if !(av.flac || av.ffmpeg) then ⟨2, 0, [], [], false, []⟩
  else
    match interruptAfter with
    | some n =>
      if n < order.length then interruptedResult (loopState prefer av order n)
      else completedResult (loopState prefer av order order.length)
    | none => completedResult (loopState prefer av order order.length)

/-- Whether the first list is an initial segment of the second
(character-wise). Helper for the substring test below. -/
def leadEq : List Char → List Char → Bool
  | [], _ => true
  | _ :: _, [] => false
  | a :: as, b :: bs => a == b && leadEq as bs

/-- Whether `needle` occurs contiguously inside `hay`. -/
def subIn (needle : List Char) : List Char → Bool
  | [] => leadEq needle []
  | c :: rest => leadEq needle (c :: rest) || subIn needle rest

/-- Python `needle in hay` on strings: contiguous substring containment. -/
def strContains (hay needle : String) : Bool :=
  subIn needle.data hay.data

/-- One discovered `.mp3` target for `run_mp3_mode`: its path, an optional
`stat` failure (`repr` text of the raised exception), an optional failure
spawning ffmpeg (the `{e!r}` text), and the stripped stderr the ffmpeg
decode run would produce on it. The mutagen header-metadata fields of a
row (duration, bitrate, sample rate, mode, vbr mode) and the size field
are not modelled: no claim concerns them. -/
structure Mp3Target where
  path : String
  statErr : Option String
  spawnErr : Option String
  ffStderr : String
deriving DecidableEq, Repr

/-- The modelled fields of one CSV row of the MP3 scan
(`_scan_one_mp3`): path, status and details. -/
structure Mp3Row where
  path : String
  status : String
  details : String
deriving DecidableEq, Repr

/-- `_ffmpeg_decode_check` (getMusic.py lines 606-624): with no ffmpeg
available, reports ok with a skip notice; a spawn failure reports not ok;
otherwise any non-empty stripped stderr is a failure with that text, and
an empty one is `"decode ok"`. -/
def ffmpeg_decode_check (ffmpegPath : Option String) (t : Mp3Target) : Bool × String :=
  match ffmpegPath with
  | none => (true, "FFmpeg not available; skipped decode check (status=warn)")
  | some _ =>
    match t.spawnErr with
    | some e => (false, "FFmpeg invocation failed: " ++ e)
    | none =>
      if t.ffStderr = "" then (true, "decode ok")
      else (false, t.ffStderr)

/-- `_scan_one_mp3` (getMusic.py lines 627-657), restricted to the
modelled fields: a `stat` failure is an error row; a decode-check message
containing `"FFmpeg not available"` is a warn row; a failed decode check
is an error row; otherwise an ok row. -/
def scan_one_mp3 (ffmpegPath : Option String) (t : Mp3Target) : Mp3Row :=
  match t.statErr with
  | some e => ⟨t.path, "error", "stat failed: " ++ e⟩
  | none =>
    if strContains (ffmpeg_decode_check ffmpegPath t).2 "FFmpeg not available" then
      ⟨t.path, "warn", (ffmpeg_decode_check ffmpegPath t).2⟩
    else if !(ffmpeg_decode_check ffmpegPath t).1 then
      ⟨t.path, "error", (ffmpeg_decode_check ffmpegPath t).2⟩
    else
      ⟨t.path, "ok", (ffmpeg_decode_check ffmpegPath t).2⟩

/-- Observable result of one `run_mp3_mode` session: exit status, the
rows collected from completed futures (in completion order), the rows
actually written to the CSV after the header, and the three status
counters. -/
structure Mp3Result where
  exitCode : Int
  outcomes : List Mp3Row
  rowsWritten : List Mp3Row
  oks : Nat
  warns : Nat
  errs : Nat
deriving DecidableEq, Repr

/-- `run_mp3_mode` (getMusic.py lines 702-807). `targets` is the
discovered `.mp3` list in worker-pool completion order; `ffmpegPath` is
the resolved ffmpeg path (`none` when the tool is absent — the scan then
proceeds with a console warning rather than aborting);
`interruptAfter = some n` models a `KeyboardInterrupt` after `n`
collected rows. A row with status `"ok"` is skipped when `only_errors`
holds — but `verbose` resets `only_errors` to false inside the loop, so
effectively `only_errors && !verbose` filters. Exit status: 130 on
interrupt, otherwise 1 when any error row was collected, else 0. -/
def run_mp3_mode (targets : List Mp3Target) (ffmpegPath : Option String)
    (onlyErrors verbose : Bool) (interruptAfter : Option Nat) : Mp3Result :=
  if targets.length = 0 then ⟨0, [], [], 0, 0, 0⟩
  else
    let interrupted : Bool :=
      match interruptAfter with
      | some n => n < targets.length
      | none => false
    let handled : Nat :=
      match interruptAfter with
      | some n => min n targets.length
      | none => targets.length
    let rows := (targets.take handled).map (scan_one_mp3 ffmpegPath)
    let written := rows.filter (fun r => !((onlyErrors && !verbose) && r.status == "ok"))
    let oks := (rows.filter (fun r => r.status == "ok")).length
    let warns := (rows.filter (fun r => r.status == "warn")).length
    let errs := (rows.filter (fun r => r.status != "ok" && r.status != "warn")).length
    if interrupted then ⟨130, rows, written, oks, warns, errs⟩
    else ⟨if errs > 0 then 1 else 0, rows, written, oks, warns, errs⟩

/-- Whether a byte is a UTF-8 continuation byte (`0x80..0xBF`). -/
def utf8Cont (x : Nat) : Bool :=
  0x80 ≤ x && x < 0xC0

/-- Fuel-indexed strict UTF-8 decoder on byte values; the fuel only bounds
the recursion and `utf8Decode` below always supplies enough. Rejects
(returns `none`, the model of `UnicodeDecodeError`) stray continuation
bytes, overlong forms, surrogate code points and anything above
`0x10FFFF`, exactly as Python `bytes.decode("utf-8", errors="strict")`. -/
def utf8DecodeAux : Nat → List Nat → Option (List Char)
  | _, [] => some []
  | 0, _ :: _ => none
  | fuel + 1, b :: rest =>
    if b < 0x80 then
      match utf8DecodeAux fuel rest with
      | some cs => some (Char.ofNat b :: cs)
      | none => none
    else if b < 0xC2 then none
    else if b < 0xE0 then
      match rest with
      | b1 :: rest2 =>
        if utf8Cont b1 then
          match utf8DecodeAux fuel rest2 with
          | some cs => some (Char.ofNat ((b - 0xC0) * 0x40 + (b1 - 0x80)) :: cs)
          | none => none
        else none
      | [] => none
    else if b < 0xF0 then
      match rest with
      | b1 :: b2 :: rest3 =>
        if (if b = 0xE0 then (0xA0 ≤ b1 && b1 < 0xC0)
            else if b = 0xED then (0x80 ≤ b1 && b1 < 0xA0)
            else utf8Cont b1) && utf8Cont b2 then
          match utf8DecodeAux fuel rest3 with
          | some cs =>
            some (Char.ofNat ((b - 0xE0) * 0x1000 + (b1 - 0x80) * 0x40 + (b2 - 0x80)) :: cs)
          | none => none
        else none
      | _ => none
    else if b < 0xF5 then
      match rest with
      | b1 :: b2 :: b3 :: rest4 =>
        if (if b = 0xF0 then (0x90 ≤ b1 && b1 < 0xC0)
            else if b = 0xF4 then (0x80 ≤ b1 && b1 < 0x90)
            else utf8Cont b1) && utf8Cont b2 && utf8Cont b3 then
          match utf8DecodeAux fuel rest4 with
          | some cs =>
            some (Char.ofNat
              ((b - 0xF0) * 0x40000 + (b1 - 0x80) * 0x1000 + (b2 - 0x80) * 0x40 + (b3 - 0x80)) :: cs)
          | none => none
        else none
      | _ => none
    else none

/-- Python `b.decode("utf-8", errors="strict")`: `none` models a raised
`UnicodeDecodeError`. -/
def utf8Decode (b : List Nat) : Option (List Char) :=
  utf8DecodeAux b.length b

/-- Python `b.decode("latin-1")`: total on bytes — every byte value maps
directly to the code point of the same value, so the strict latin-1 stage
can never fail (and `errors="replace"` with latin-1 decodes identically). -/
def latin1Decode (b : List Nat) : List Char :=
  b.map Char.ofNat

/-- What a call of `_decode_bytes` does: either it returns a string, or it
escapes with an uncaught `LookupError` because the `"mbcs"` codec does not
exist in the codec registry of the host (it is Windows-only) — the
`except UnicodeDecodeError` clause does not catch `LookupError`. -/
inductive DecodeOutcome where
  | ok (s : String)
  | lookupErr
deriving DecidableEq, Repr

/-- `_decode_bytes` (getMusic.py lines 396-402, testFLAC.py lines 20-27)
over a byte sequence. `mbcsCodec` models the platform: `some dec` when the
host codec registry provides `"mbcs"` (Windows) with `dec` its strict
decoder (`none` result = `UnicodeDecodeError`), and `none` on hosts
without it. The chain: UTF-8 strict; then `"mbcs"` strict — a missing
codec raises `LookupError`, which the `except UnicodeDecodeError` does
not catch, so it escapes; then latin-1 strict, which accepts every byte
sequence, making the final `errors="replace"` line unreachable. -/
def decode_bytes (mbcsCodec : Option (List Nat → Option String)) (b : List Nat) :
    DecodeOutcome :=
  match utf8Decode b with
  | some cs => .ok (String.mk cs)
  | none =>
    match mbcsCodec with
    | none => .lookupErr
    | some dec =>
      match dec b with
      | some s => .ok s
      | none => .ok (String.mk (latin1Decode b))

/-- A filesystem path as `pathlib` sees it for the operations
`_write_header` uses: the parent directory components, and the final name
split into `stem` and `suffix` (the suffix is empty when the name has no
extension). -/
structure FsPath where
  dir : List String
  stem : String
  suffix : String
deriving DecidableEq, Repr

/-- The file name of a path: `stem ++ suffix`. -/
def fsName (p : FsPath) : String :=
  p.stem ++ p.suffix

/-- `csv_path / DEFAULT_MP3_OUTPUT`: descend into the directory `p` and
name the default MP3 report file `mp3_scan_results.csv` inside it. -/
def childDefault (p : FsPath) : FsPath :=
  ⟨p.dir ++ [fsName p], "mp3_scan_results", ".csv"⟩

/-- `_rotated_path` (getMusic.py lines 660-662): a sibling named
`{stem}-{ts}{suffix}` of the same path, with `ts` the formatted current
time. -/
def rotatedPath (ts : String) (p : FsPath) : FsPath :=
  ⟨p.dir, p.stem ++ "-" ++ ts, p.suffix⟩

/-- What `target.open("w", ...)` does for a given path in the current
filesystem: succeeds, raises `PermissionError`, or raises
`IsADirectoryError`. -/
inductive OpenOutcome where
  | opened
  | permDenied
  | isDir
deriving DecidableEq, Repr

/-- `_write_header` (getMusic.py lines 665-690), with the filesystem
behavior abstracted into the oracle `openOut` and the timestamp into
`ts`. Returns the path whose writer is handed back (`none` when the
fallback open itself fails, in which case the exception propagates), and
the list of directories passed to `mkdir(parents=True, exist_ok=True)`.
An extensionless destination is first created as a directory and the
default report name is placed inside it; then the parent of the
destination is created; a `PermissionError` on open falls back to the
timestamp-rotated sibling, while an `IsADirectoryError` falls back to the
default report name inside the directory. -/
def write_header (openOut : FsPath → OpenOutcome) (ts : String) (p0 : FsPath) :
    Option FsPath × List (List String) :=
  let p := if p0.suffix = "" then childDefault p0 else p0
  let made := (if p0.suffix = "" then [p0.dir ++ [fsName p0]] else []) ++ [p.dir]
  match openOut p with
  | .opened => (some p, made)
  | .permDenied =>
    match openOut (rotatedPath ts p) with
    | .opened => (some (rotatedPath ts p), made)
    | _ => (none, made)
  | .isDir =>
    match openOut (childDefault p) with
    | .opened => (some (childDefault p), made)
    | _ => (none, made)

theorem foldl_stepLoop (prefer : String) (av : Avail) (l : List Target) (s : LoopState) :
    List.foldl (stepLoop prefer av) s l =
      ⟨s.checked + l.length, s.results ++ l.map (worker prefer av),
       s.errors ++ (l.map (worker prefer av)).filter (fun o => !o.ok)⟩ := by
  induction l generalizing s with
  | nil => simp
  | cons t ts ih =>
    rw [List.foldl_cons, ih]
    cases h : (worker prefer av t).ok <;>
      simp [stepLoop, h, List.filter_cons] <;> omega

theorem loopState_eq (prefer : String) (av : Avail) (order : List Target) (i : Nat) :
    loopState prefer av order i =
      ⟨(order.take i).length, (order.take i).map (worker prefer av),
       ((order.take i).map (worker prefer av)).filter (fun o => !o.ok)⟩ := by
  simp [loopState, foldl_stepLoop prefer av (order.take i) ⟨0, [], []⟩]

/-- C5: at every observation point of a FLAC-mode run — after any number
`i` of collected results, and in the terminal state of any session,
interrupted or not — the `checked` counter equals the number of outcomes
collected, and it never exceeds the number of discovered targets. -/
theorem C5_progress_invariant (prefer : String) (av : Avail) (order : List Target)
    (i : Nat) (itr : Option Nat) :
    ((loopState prefer av order i).checked = (loopState prefer av order i).results.length ∧
      (loopState prefer av order i).checked ≤ order.length) ∧
    ((run_flac_mode order prefer av itr).checked =
        (run_flac_mode order prefer av itr).outcomes.length ∧
      (run_flac_mode order prefer av itr).checked ≤ order.length) := by
  have hpt : ∀ j : Nat,
      (loopState prefer av order j).checked = (loopState prefer av order j).results.length ∧
        (loopState prefer av order j).checked ≤ order.length := by
    intro j
    rw [loopState_eq]
    exact ⟨by simp, by simp [List.length_take_le j order]⟩
  refine ⟨hpt i, ?_⟩
  unfold run_flac_mode
  by_cases h0 : order.length = 0
  · simp [h0]
  · by_cases hav : (av.flac || av.ffmpeg) = true
    · simp only [h0, if_false, hav, Bool.not_true, Bool.false_eq_true, if_false]
      have hterm : ∀ j : Nat,
          (completedResult (loopState prefer av order j)).checked =
              (completedResult (loopState prefer av order j)).outcomes.length ∧
            (completedResult (loopState prefer av order j)).checked ≤ order.length := by
        intro j
        unfold completedResult
        rcases hpt j with ⟨h1, h2⟩
        have h2' : (loopState prefer av order j).results.length ≤ order.length := h1 ▸ h2
        by_cases he : (loopState prefer av order j).errors.isEmpty <;> simp [he, h1, h2, h2']
      match itr with
      | none => exact hterm order.length
      | some n =>
        by_cases hn : n < order.length
        · rcases hpt n with ⟨h1, h2⟩
          have h2' : (loopState prefer av order n).results.length ≤ order.length := h1 ▸ h2
          simp [hn, interruptedResult, h1, h2, h2']
        · simpa [hn] using hterm order.length
    · simp [h0, Bool.eq_false_iff.mpr hav]

/-- C1 counterexample: in MP3 mode a missing validator tool does NOT
abort the session with exit status 2 and zero outcomes — the scan of a
non-empty target list proceeds, records a warn outcome for the file, and
exits with status 0. -/
theorem C1_counterexample :
    (run_mp3_mode [⟨"song.mp3", none, none, ""⟩] none true false none).exitCode = 0 ∧
    (run_mp3_mode [⟨"song.mp3", none, none, ""⟩] none true false none).outcomes =
      [⟨"song.mp3", "warn", "FFmpeg not available; skipped decode check (status=warn)"⟩] := by
  decide

/-- C1 (amended): in FLAC mode, a scan with a non-empty target list and
no validator tool available aborts with exit status 2 before any per-file
job is dispatched, with zero outcomes recorded (never a per-file
failure); in MP3 mode, a missing tool does not abort: every statable file
is scanned, its outcome is recorded with warn status, and the session
exits with status 0. -/
theorem C1_no_tool_abort (order : List Target) (prefer : String) (itr : Option Nat)
    (hne : order ≠ []) (mp3s : List Mp3Target) (hstat : ∀ t ∈ mp3s, t.statErr = none)
    (oe v : Bool) :
    run_flac_mode order prefer ⟨false, false⟩ itr = ⟨2, 0, [], [], false, []⟩ ∧
    (run_mp3_mode mp3s none oe v none).exitCode = 0 ∧
    ∀ row ∈ (run_mp3_mode mp3s none oe v none).outcomes, row.status = "warn" := by
  have hlen : ¬ order.length = 0 := fun h => hne (List.length_eq_zero.mp h)
  have hwarn : ∀ t : Mp3Target, t.statErr = none →
      scan_one_mp3 none t =
        ⟨t.path, "warn", "FFmpeg not available; skipped decode check (status=warn)"⟩ := by
    intro t ht
    have hc : strContains "FFmpeg not available; skipped decode check (status=warn)"
        "FFmpeg not available" = true := by decide
    simp [scan_one_mp3, ht, ffmpeg_decode_check, hc]
  have hrows : ∀ row ∈ mp3s.map (scan_one_mp3 none), row.status = "warn" := by
    intro row hrow
    rcases List.mem_map.mp hrow with ⟨t, ht, rfl⟩
    rw [hwarn t (hstat t ht)]
  refine ⟨by simp [run_flac_mode, hlen], ?_, ?_⟩
  · by_cases hmp : mp3s.length = 0
    · simp [run_mp3_mode, hmp]
    · have herrs : (mp3s.map (scan_one_mp3 none)).filter
          (fun r => r.status != "ok" && r.status != "warn") = [] := by
        rw [List.filter_eq_nil_iff]
        intro r hr
        simp [hrows r hr]
      simp [run_mp3_mode, hmp, herrs]
  · by_cases hmp : mp3s.length = 0
    · simp [run_mp3_mode, hmp]
    · intro row hrow
      have houts : (run_mp3_mode mp3s none oe v none).outcomes =
          mp3s.map (scan_one_mp3 none) := by
        simp [run_mp3_mode, hmp]
      rw [houts] at hrow
      exact hrows row hrow

/-- C2 counterexample: the primary (flac) validator classifies exit code
0 as a pass even when the process produced non-empty output, contrary to
the claim that exit code 0 with non-empty output is not a success. -/
theorem C2_counterexample :
    (test_with_flac ⟨0, "WARNING: decoded with errors", ""⟩).1 = true ∧
    "WARNING: decoded with errors" ≠ "" := by
  decide

/-- C2 (amended): a file validated by the primary (flac) validator is
classified as a success exactly when the process exits with code 0; the
captured output streams play no part in the classification. -/
theorem C2_flac_pass_iff (r : ProcResult) :
    ((test_with_flac r).1 = true ↔ r.code = 0) ∧
    (∀ o e : String, (test_with_flac ⟨r.code, o, e⟩).1 = (test_with_flac r).1) := by
  constructor
  · by_cases h : r.code = 0 <;> simp [test_with_flac, h]
  · intro o e
    by_cases h : r.code = 0 <;> simp [test_with_flac, h]

/-- C3: the fallback (ffmpeg, error-channel) validator passes a file
exactly when the process exits with code 0 AND the diagnostic stream is
empty; exit code 0 with a non-empty diagnostic stream is a failure whose
message is the diagnostic text. -/
theorem C3_ffmpeg_error_channel (r : ProcResult) :
    ((test_with_ffmpeg r).1 = true ↔ (r.code = 0 ∧ r.err = "")) ∧
    (r.code = 0 → r.err ≠ "" → test_with_ffmpeg r = (false, r.err)) := by
  by_cases h0 : r.code = 0 <;> by_cases he : r.err = "" <;>
    simp [test_with_ffmpeg, h0, he]

/-- Witness for C3 at a concrete input: exit code 0 with diagnostic text
`"corrupt frame"` is classified as a failure carrying that text. -/
theorem C3_ffmpeg_error_channel_witness :
    test_with_ffmpeg ⟨0, "", "corrupt frame"⟩ = (false, "corrupt frame") :=
  (C3_ffmpeg_error_channel ⟨0, "", "corrupt frame"⟩).2 rfl (by decide)

/-- C4 counterexample: with both tools available and the preferred tool
`flac` failing on a file, the adapter produces the failure outcome
without ever attempting ffmpeg — the claimed fallback chain does not
apply to the `flac` preference. -/
theorem C4_counterexample :
    test_flac_invocations ⟨⟨1, "", "MD5 mismatch"⟩, ⟨0, "", ""⟩⟩ "flac" ⟨true, true⟩ =
      ["flac"] ∧
    test_flac ⟨⟨1, "", "MD5 mismatch"⟩, ⟨0, "", ""⟩⟩ "flac" ⟨true, true⟩ =
      (false, "flac", "MD5 mismatch") := by
  decide

/-- C4 (amended): the fallback chain is asymmetric. When the preferred
tool is ffmpeg and both tools are available, an ffmpeg failure leads to
flac being attempted before the outcome is produced; when the preferred
tool is flac, flac alone is attempted whenever it is available — its
verdict is final and ffmpeg is attempted only when flac is absent. -/
theorem C4_fallback_chain (fp : FileProc) (av : Avail) :
    (av.ffmpeg = true → av.flac = true → (test_with_ffmpeg fp.ffmpegRes).1 = false →
      test_flac_invocations fp "ffmpeg" av = ["ffmpeg", "flac"]) ∧
    (av.flac = true → test_flac_invocations fp "flac" av = ["flac"]) ∧
    (av.flac = false → av.ffmpeg = true → test_flac_invocations fp "flac" av = ["ffmpeg"]) := by
  have hne : ¬ ("flac" = "ffmpeg") := by decide
  refine ⟨?_, ?_, ?_⟩
  · intro hff hfl hfail
    simp [test_flac_invocations, hff, hfl, hfail]
  · intro hfl
    simp [test_flac_invocations, hne, hfl]
  · intro hfl hff
    simp [test_flac_invocations, hne, hfl, hff]

/-- Witness for C4 at concrete inputs: preferred ffmpeg failing with both
tools available leads to the chain `["ffmpeg", "flac"]`. -/
theorem C4_fallback_chain_witness :
    test_flac_invocations ⟨⟨0, "", ""⟩, ⟨1, "", "boom"⟩⟩ "ffmpeg" ⟨true, true⟩ =
      ["ffmpeg", "flac"] :=
  (C4_fallback_chain ⟨⟨0, "", ""⟩, ⟨1, "", "boom"⟩⟩ ⟨true, true⟩).1 rfl rfl (by decide)

/-- C6: for a completed (non-interrupted) FLAC-mode scan with a
non-empty target list and an available validator, the exit status is 0
exactly when every validated file passed (and then no report is
written), the exit status is 1 exactly when some file failed, and
whenever the report is written it contains exactly the non-passing
outcomes. -/
theorem C6_exit_report_contract (order : List Target) (prefer : String) (av : Avail)
    (r : ScanResult) (hne : order ≠ []) (hav : av.flac = true ∨ av.ffmpeg = true)
    (hr : r = run_flac_mode order prefer av none) :
    ((r.exitCode = 0) ↔ ∀ o ∈ r.outcomes, o.ok = true) ∧
    (r.exitCode = 0 → r.reportWritten = false ∧ r.report = []) ∧
    ((r.exitCode = 1) ↔ ∃ o ∈ r.outcomes, o.ok = false) ∧
    (r.exitCode = 1 → r.reportWritten = true) ∧
    (r.reportWritten = true → r.report = r.outcomes.filter (fun o => !o.ok)) := by
  have havb : (av.flac || av.ffmpeg) = true := by
    rcases hav with h | h <;> simp [h]
  have hlen : ¬ order.length = 0 := fun h => hne (List.length_eq_zero.mp h)
  have hrun : run_flac_mode order prefer av none =
      completedResult (loopState prefer av order order.length) := by
    simp [run_flac_mode, hlen, havb]
  have hls : loopState prefer av order order.length =
      ⟨order.length, order.map (worker prefer av),
       (order.map (worker prefer av)).filter (fun o => !o.ok)⟩ := by
    rw [loopState_eq, List.take_length]
  subst hr
  rw [hrun, hls]
  by_cases he : (order.map (worker prefer av)).filter (fun o => !o.ok) = []
  · have hall : ∀ o ∈ order.map (worker prefer av), o.ok = true := by
      intro o ho
      have h1 := List.filter_eq_nil_iff.mp he o ho
      simpa using h1
    have hall2 : ∀ a ∈ order, (worker prefer av a).ok = true := fun a ha =>
      hall _ (List.mem_map_of_mem _ ha)
    simp [completedResult, he, hall]
    exact hall2
  · obtain ⟨o, ho⟩ := List.exists_mem_of_ne_nil _ he
    have hmem := List.mem_filter.mp ho
    have hex : ∃ o ∈ order.map (worker prefer av), o.ok = false :=
      ⟨o, hmem.1, by simpa using hmem.2⟩
    have hex2 : ∃ x ∈ order, (worker prefer av x).ok = false := by
      rcases hex with ⟨o', ho', hf⟩
      rcases List.mem_map.mp ho' with ⟨x, hx, rfl⟩
      exact ⟨x, hx, hf⟩
    have hnall : ¬ ∀ o ∈ order.map (worker prefer av), o.ok = true := by
      rcases hex with ⟨o', ho', hf⟩
      intro hall
      rw [hall o' ho'] at hf
      cases hf
    have hnall2 : ¬ ∀ a ∈ order, (worker prefer av a).ok = true := by
      rcases hex2 with ⟨x, hx, hf⟩
      intro hall
      rw [hall x hx] at hf
      cases hf
    simp [completedResult, he, hex, hex2, hnall, hnall2]

/-- Witness for C6 at concrete inputs: a single passing file with both
tools available gives exit status 0. -/
theorem C6_exit_report_contract_witness :
    (run_flac_mode [⟨"a.flac", ⟨⟨0, "", ""⟩, ⟨0, "", ""⟩⟩, none⟩]
        "flac" ⟨true, true⟩ none).exitCode = 0 :=
  ((C6_exit_report_contract [⟨"a.flac", ⟨⟨0, "", ""⟩, ⟨0, "", ""⟩⟩, none⟩] "flac"
      ⟨true, true⟩ _ (by simp) (Or.inl rfl) rfl).1).mpr (by decide)

/-- C7: an operator interrupt delivered mid-run (before all targets are
collected) ends the session with the distinct cancellation exit status
130 in both FLAC and MP3 modes, and the number of outcomes recorded at
that point is at most the number of discovered targets. -/
theorem C7_cancellation (order : List Target) (prefer : String) (av : Avail) (n : Nat)
    (hn : n < order.length) (hav : av.flac = true ∨ av.ffmpeg = true)
    (mp3s : List Mp3Target) (fp : Option String) (oe v : Bool) (m : Nat)
    (hm : m < mp3s.length) :
    ((run_flac_mode order prefer av (some n)).exitCode = 130 ∧
      (run_flac_mode order prefer av (some n)).outcomes.length ≤ order.length) ∧
    ((run_mp3_mode mp3s fp oe v (some m)).exitCode = 130 ∧
      (run_mp3_mode mp3s fp oe v (some m)).outcomes.length ≤ mp3s.length) := by
  have hlen : ¬ order.length = 0 := by omega
  have havb : (av.flac || av.ffmpeg) = true := by
    rcases hav with h | h <;> simp [h]
  have hmlen : ¬ mp3s.length = 0 := by omega
  refine ⟨?_, ?_, ?_⟩
  · have hrun : run_flac_mode order prefer av (some n) =
        interruptedResult (loopState prefer av order n) := by
      simp [run_flac_mode, hlen, havb, hn]
    rw [hrun, loopState_eq]
    refine ⟨rfl, ?_⟩
    simp only [interruptedResult, List.length_map, List.length_take]
    omega
  · simp [run_mp3_mode, hmlen, hm]
  · simp [run_mp3_mode, hmlen, hm, List.length_take]

/-- Witness for C7 at concrete inputs: interrupt before the first result
in both modes gives exit status 130. -/
theorem C7_cancellation_witness :
    (run_flac_mode [⟨"a.flac", ⟨⟨0, "", ""⟩, ⟨0, "", ""⟩⟩, none⟩]
        "flac" ⟨true, true⟩ (some 0)).exitCode = 130 :=
  ((C7_cancellation [⟨"a.flac", ⟨⟨0, "", ""⟩, ⟨0, "", ""⟩⟩, none⟩] "flac" ⟨true, true⟩ 0
      (by decide) (Or.inl rfl) [⟨"b.mp3", none, none, ""⟩] none true false 0
      (by decide)).1).1

/-- C10: a `KeyboardInterrupt` during the FLAC-mode result-collection
loop makes the session return 130 without reaching the report-writing
step: no report is written and no rows are emitted, even when failing
outcomes had already been collected. -/
theorem C10_interrupt_skips_report (order : List Target) (prefer : String) (av : Avail)
    (n : Nat) (hn : n < order.length) (hav : av.flac = true ∨ av.ffmpeg = true) :
    (run_flac_mode order prefer av (some n)).exitCode = 130 ∧
    (run_flac_mode order prefer av (some n)).reportWritten = false ∧
    (run_flac_mode order prefer av (some n)).report = [] := by
  have hlen : ¬ order.length = 0 := by omega
  have havb : (av.flac || av.ffmpeg) = true := by
    rcases hav with h | h <;> simp [h]
  simp [run_flac_mode, hlen, havb, hn, interruptedResult]

/-- Witness for C10 at concrete inputs: a failing outcome has already
been collected when the interrupt arrives, yet the session returns 130
with no report written. -/
theorem C10_interrupt_skips_report_witness :
    (run_flac_mode [⟨"bad.flac", ⟨⟨1, "", "CRC error"⟩, ⟨1, "", "e"⟩⟩, none⟩,
        ⟨"ok.flac", ⟨⟨0, "", ""⟩, ⟨0, "", ""⟩⟩, none⟩]
      "flac" ⟨true, true⟩ (some 1)).errors ≠ [] ∧
    (run_flac_mode [⟨"bad.flac", ⟨⟨1, "", "CRC error"⟩, ⟨1, "", "e"⟩⟩, none⟩,
        ⟨"ok.flac", ⟨⟨0, "", ""⟩, ⟨0, "", ""⟩⟩, none⟩]
      "flac" ⟨true, true⟩ (some 1)).exitCode = 130 ∧
    (run_flac_mode [⟨"bad.flac", ⟨⟨1, "", "CRC error"⟩, ⟨1, "", "e"⟩⟩, none⟩,
        ⟨"ok.flac", ⟨⟨0, "", ""⟩, ⟨0, "", ""⟩⟩, none⟩]
      "flac" ⟨true, true⟩ (some 1)).reportWritten = false :=
  ⟨by decide,
   (C10_interrupt_skips_report [⟨"bad.flac", ⟨⟨1, "", "CRC error"⟩, ⟨1, "", "e"⟩⟩, none⟩,
      ⟨"ok.flac", ⟨⟨0, "", ""⟩, ⟨0, "", ""⟩⟩, none⟩] "flac" ⟨true, true⟩ 1
      (by decide) (Or.inl rfl)).1,
   (C10_interrupt_skips_report [⟨"bad.flac", ⟨⟨1, "", "CRC error"⟩, ⟨1, "", "e"⟩⟩, none⟩,
      ⟨"ok.flac", ⟨⟨0, "", ""⟩, ⟨0, "", ""⟩⟩, none⟩] "flac" ⟨true, true⟩ 1
      (by decide) (Or.inl rfl)).2.1⟩

/-- Witness for C1 at concrete inputs: one FLAC target with no tool
available aborts with exit status 2 and empty state. -/
theorem C1_no_tool_abort_witness :
    run_flac_mode [⟨"a.flac", ⟨⟨0, "", ""⟩, ⟨0, "", ""⟩⟩, none⟩] "flac" ⟨false, false⟩ none =
      ⟨2, 0, [], [], false, []⟩ :=
  (C1_no_tool_abort [⟨"a.flac", ⟨⟨0, "", ""⟩, ⟨0, "", ""⟩⟩, none⟩] "flac" none (by simp)
    [⟨"b.mp3", none, none, ""⟩] (by decide) true false).1

/-- C8 counterexample: the byte sequence `[0xFF]` is not valid UTF-8, and
on a host whose codec registry lacks the Windows-only `"mbcs"` codec the
decode helper does not return a string — the codec lookup raises an
uncaught `LookupError` (only `UnicodeDecodeError` is caught). -/
theorem C8_counterexample :
    decode_bytes none [255] = .lookupErr ∧ utf8Decode [255] = none := by
  decide

/-- C8 (amended): on hosts whose codec registry provides the
platform-native `"mbcs"` fallback codec, the decode helper returns a
valid string for every byte sequence and never raises — UTF-8 strict is
tried first (and when it succeeds its result is returned on any host),
then the native codec, then latin-1, which accepts every byte sequence,
so the final best-effort replacement stage is never needed. On hosts
without that codec, input that is not valid UTF-8 escapes with an
uncaught unknown-encoding error. -/
theorem C8_decode_total_with_codec (mc : Option (List Nat → Option String))
    (dec : List Nat → Option String) (b : List Nat) :
    (∃ s, decode_bytes (some dec) b = .ok s) ∧
    (∀ cs, utf8Decode b = some cs → decode_bytes mc b = .ok (String.mk cs)) := by
  constructor
  · unfold decode_bytes
    cases h : utf8Decode b
    · cases hd : dec b <;> simp [hd]
    · simp
  · intro cs hcs
    unfold decode_bytes
    rw [hcs]

/-- Witness for C8 at concrete inputs: the valid UTF-8 bytes for `"hi"`
decode to that string on any host. -/
theorem C8_decode_total_with_codec_witness :
    decode_bytes none [104, 105] = .ok (String.mk [Char.ofNat 104, Char.ofNat 105]) :=
  (C8_decode_total_with_codec none (fun _ => none) [104, 105]).2
    [Char.ofNat 104, Char.ofNat 105] (by decide)

/-- C9 counterexample: a report destination that is an existing directory
(with a `.csv` suffix) does NOT fall back to the stem-plus-timestamp
sibling — the writer instead opens the default report file name inside
that directory. -/
theorem C9_counterexample :
    (write_header (fun p => if p.stem = "report" then .isDir else .opened)
        "20260101-000000" ⟨["out"], "report", ".csv"⟩).1 =
      some ⟨["out", "report.csv"], "mp3_scan_results", ".csv"⟩ ∧
    some (⟨["out", "report.csv"], "mp3_scan_results", ".csv"⟩ : FsPath) ≠
      some (rotatedPath "20260101-000000" ⟨["out"], "report", ".csv"⟩) := by
  decide

/-- C9 (amended): for a destination with a non-empty extension, the
MP3-mode report writer creates the parent directory, falls back to the
derived stem-plus-timestamp sibling when opening raises `PermissionError`,
and falls back to the default report file name inside the destination
when opening raises `IsADirectoryError` — the report is not lost in
either case. -/
theorem C9_report_fallback (openOut : FsPath → OpenOutcome) (ts : String) (p : FsPath)
    (hsuf : p.suffix ≠ "") :
    ((write_header openOut ts p).2 = [p.dir]) ∧
    (openOut p = .opened → (write_header openOut ts p).1 = some p) ∧
    (openOut p = .permDenied → openOut (rotatedPath ts p) = .opened →
      (write_header openOut ts p).1 = some (rotatedPath ts p)) ∧
    (openOut p = .isDir → openOut (childDefault p) = .opened →
      (write_header openOut ts p).1 = some (childDefault p)) := by
  refine ⟨?_, ?_, ?_, ?_⟩
  · cases h1 : openOut p
    · simp [write_header, hsuf, h1]
    · cases h2 : openOut (rotatedPath ts p) <;> simp [write_header, hsuf, h1, h2]
    · cases h2 : openOut (childDefault p) <;> simp [write_header, hsuf, h1, h2]
  · intro h1
    simp [write_header, hsuf, h1]
  · intro h1 h2
    simp [write_header, hsuf, h1, h2]
  · intro h1 h2
    simp [write_header, hsuf, h1, h2]

/-- Witness for C9 at concrete inputs: a permission-denied destination
falls back to the timestamp-rotated sibling. -/
theorem C9_report_fallback_witness :
    (write_header (fun p => if p.stem = "errors" then .permDenied else .opened)
        "20260101-000000" ⟨["tmp"], "errors", ".csv"⟩).1 =
      some (rotatedPath "20260101-000000" ⟨["tmp"], "errors", ".csv"⟩) :=
  (C9_report_fallback (fun p => if p.stem = "errors" then .permDenied else .opened)
    "20260101-000000" ⟨["tmp"], "errors", ".csv"⟩ (by decide)).2.2.1 (by decide) (by decide)

end GetMusic
